import Mathlib

/-!
Shallow embedding of the two programs of the ha-tempest-weather repository:
`spotify.py` (the track deduplication monitor) and `tempest.py` (the MQTT
weather mirror).  Python dicts are modelled as insertion-ordered association
lists with unique keys, epoch seconds as `Int`, and the float `block_hours`
as `Rat` (the comparisons involved are exact).  Network and file effects are
made explicit parameters: the result of an HTTP fetch, the success of a
pickle dump, and the scripted list of inbound websocket messages.
-/

namespace HaTempest

/-! ### Python dict as an association list -/

/-- Lookup in a Python-style dict: first entry whose key matches. -/
def dictGet {α : Type} : List (String × α) → String → Option α
  | [], _ => none
  | (k', v) :: rest, k => if k' = k then some v else dictGet rest k

/-- Python `d[k] = v`: replace the value in place if the key is present
(insertion order kept), else append at the end. -/
def dictSet {α : Type} : List (String × α) → String → α → List (String × α)
  | [], k, v => [(k, v)]
  | (k', v') :: rest, k, v =>
      if k' = k then (k, v) :: rest else (k', v') :: dictSet rest k v

theorem dictGet_dictSet_self {α : Type} (d : List (String × α)) (k : String) (v : α) :
    dictGet (dictSet d k v) k = some v := by
  induction d with
  | nil => simp [dictGet, dictSet]
  | cons hd tl ih =>
      obtain ⟨k', v'⟩ := hd
      by_cases h : k' = k
      · simp [dictGet, dictSet, h]
      · simp [dictGet, dictSet, h, ih]

theorem dictGet_dictSet_ne {α : Type} (d : List (String × α)) (k k' : String) (v : α)
    (h : k' ≠ k) : dictGet (dictSet d k v) k' = dictGet d k' := by
  have h' : ¬ (k = k') := fun hh => h hh.symm
  induction d with
  | nil => simp [dictGet, dictSet, h']
  | cons hd tl ih =>
      obtain ⟨k0, v0⟩ := hd
      by_cases h0 : k0 = k
      · subst h0
        simp [dictGet, dictSet, h']
      · simp [dictGet, dictSet, h0, ih]

theorem dictGet_eq_none_of_not_mem {α : Type} (d : List (String × α)) (k : String)
    (h : k ∉ d.map Prod.fst) : dictGet d k = none := by
  induction d with
  | nil => rfl
  | cons hd tl ih =>
      obtain ⟨k0, v0⟩ := hd
      simp only [List.map_cons, List.mem_cons] at h
      push_neg at h
      have h1 : ¬ (k0 = k) := fun hh => h.1 hh.symm
      simp [dictGet, h1, ih h.2]

/-! ### spotify.py: transaction id counter (lines 49-60) -/

/-- Initial value of the module-level global `tx_id` (line 49). -/
def tx_id_init : Nat := 1

/-- `get_new_tx_id` (lines 54-60): bump the global counter, wrapping to 1
once it has reached 65535, and return the new value. -/
def get_new_tx_id (tx : Nat) : Nat :=
  if tx ≥ 65535 then 1 else tx + 1

/-! ### spotify.py: Tracker (lines 67-144) -/

/-- State of one `Tracker` instance.  `track_dict` maps a media content id
to the epoch second at which it was last accepted; `skip_enabled` is the
lazily fetched gate flag (`None` until a fetch succeeds or an update event
arrives); `block_hours` is the float setting, modelled exactly as a
rational. -/
structure Tracker where
  media_player_id : String
  skip_enabled_id : String
  skip_enabled : Option Bool
  block_hours : Rat
  track_dict : List (String × Int)
deriving DecidableEq, Repr

/-- A freshly constructed `Tracker` when no pickle file exists
(`__init__`, lines 69-86): empty `track_dict`, unset gate. -/
def trackerInit (pid gid : String) (bh : Rat) : Tracker :=
  ⟨pid, gid, none, bh, []⟩

/-- `get_skip_enabled_status` (lines 110-124): an HTTP GET of the helper
entity.  The effect of the network is the explicit argument `fetched`:
`none` models a non-ok HTTP response (the attribute is left unchanged),
`some b` models an ok response whose state compared to "on" gives `b`. -/
def get_skip_enabled_status (tr : Tracker) (fetched : Option Bool) : Tracker :=
  match fetched with
  | none => tr
  | some b => { tr with skip_enabled := some b }

/-- Lines 90-91 of `should_skip_track`: fetch the gate only when it is
still unset. -/
def fetchIfUnset (tr : Tracker) (fetched : Option Bool) : Tracker :=
  if tr.skip_enabled = none then get_skip_enabled_status tr fetched else tr

/-- The gate value in force during an evaluation: the stored flag when set,
otherwise whatever the lazy fetch produced. -/
def effGate (tr : Tracker) (fetched : Option Bool) : Option Bool :=
  match tr.skip_enabled with
  | none => fetched
  | some b => some b

/-- Lines 93-108 of `should_skip_track`, after the lazy gate fetch: decide
on `media_id` at time `now`.  Returns the decision (true = skip/suppress)
and the updated tracker. -/
def should_skip_core (tr : Tracker) (media_id : String) (now : Int) : Bool × Tracker :=
  match dictGet tr.track_dict media_id with
  | none =>
      (false, { tr with track_dict := dictSet tr.track_dict media_id now })
  | some track_time =>
      if ((now - track_time : Int) : Rat) > tr.block_hours * 3600 then
        (false, { tr with track_dict := dictSet tr.track_dict media_id now })
      else
        (decide (tr.skip_enabled = some true), tr)

/-- `Tracker.should_skip_track` (lines 88-108).  The two calls to
`time_as_int()` inside one evaluation are modelled by the single instant
`now`. -/
def should_skip_track (tr : Tracker) (media_id : String) (now : Int)
    (fetched : Option Bool) : Bool × Tracker :=
  should_skip_core (fetchIfUnset tr fetched) media_id now

theorem fetchIfUnset_track_dict (tr : Tracker) (fetched : Option Bool) :
    (fetchIfUnset tr fetched).track_dict = tr.track_dict := by
  unfold fetchIfUnset
  split
  · cases fetched <;> rfl
  · rfl

theorem fetchIfUnset_block_hours (tr : Tracker) (fetched : Option Bool) :
    (fetchIfUnset tr fetched).block_hours = tr.block_hours := by
  unfold fetchIfUnset
  split
  · cases fetched <;> rfl
  · rfl

theorem fetchIfUnset_skip_enabled (tr : Tracker) (fetched : Option Bool) :
    (fetchIfUnset tr fetched).skip_enabled = effGate tr fetched := by
  unfold fetchIfUnset effGate
  cases h : tr.skip_enabled with
  | none => simp [h, get_skip_enabled_status]; cases fetched <;> simp [get_skip_enabled_status, h]
  | some b => simp [h]

theorem should_skip_core_unseen (tr : Tracker) (k : String) (now : Int)
    (hd : dictGet tr.track_dict k = none) :
    should_skip_core tr k now =
      (false, { tr with track_dict := dictSet tr.track_dict k now }) := by
  simp [should_skip_core, hd]

theorem should_skip_core_expired (tr : Tracker) (k : String) (t1 now : Int)
    (hd : dictGet tr.track_dict k = some t1)
    (hexp : ((now - t1 : Int) : Rat) > tr.block_hours * 3600) :
    should_skip_core tr k now =
      (false, { tr with track_dict := dictSet tr.track_dict k now }) := by
  simp only [should_skip_core, hd]
  rw [if_pos hexp]

theorem should_skip_core_within (tr : Tracker) (k : String) (t1 now : Int)
    (hd : dictGet tr.track_dict k = some t1)
    (hwin : ((now - t1 : Int) : Rat) ≤ tr.block_hours * 3600) :
    should_skip_core tr k now = (decide (tr.skip_enabled = some true), tr) := by
  simp only [should_skip_core, hd]
  rw [if_neg (not_lt.mpr hwin)]

/-- Claim C2: for a key recorded at `t1` and evaluated at `t2` with
`t2 - t1` at most `block_hours * 3600` seconds, `should_skip_track`
returns the skip decision exactly when the gate in force is true (a false
or still-unset gate yields accept), and the stored timestamp for the key
stays `t1` on both paths. -/
theorem should_skip_track_within_window (tr : Tracker) (k : String) (t1 t2 : Int)
    (fetched : Option Bool)
    (hrec : dictGet tr.track_dict k = some t1)
    (hord : t1 < t2)
    (hwin : ((t2 - t1 : Int) : Rat) ≤ tr.block_hours * 3600) :
    ((should_skip_track tr k t2 fetched).1 = true ↔ effGate tr fetched = some true) ∧
    dictGet (should_skip_track tr k t2 fetched).2.track_dict k = some t1 := by
  have hd : dictGet (fetchIfUnset tr fetched).track_dict k = some t1 := by
    rw [fetchIfUnset_track_dict]; exact hrec
  have hw : ((t2 - t1 : Int) : Rat) ≤ (fetchIfUnset tr fetched).block_hours * 3600 := by
    rw [fetchIfUnset_block_hours]; exact hwin
  unfold should_skip_track
  rw [should_skip_core_within (fetchIfUnset tr fetched) k t1 t2 hd hw]
  constructor
  · simp [fetchIfUnset_skip_enabled]
  · exact hd

/-- Witness for claim C2 at a concrete within-window input. -/
theorem should_skip_track_within_window_witness :
    ((should_skip_track ⟨"p", "g", some true, 24, [("song", 0)]⟩ "song" 3600 none).1 = true ↔
        effGate ⟨"p", "g", some true, 24, [("song", 0)]⟩ none = some true) ∧
    dictGet (should_skip_track ⟨"p", "g", some true, 24, [("song", 0)]⟩
        "song" 3600 none).2.track_dict "song" = some 0 :=
  should_skip_track_within_window ⟨"p", "g", some true, 24, [("song", 0)]⟩ "song" 0 3600 none
    (by decide) (by decide) (by norm_num)

/-- Claim C3: an unseen key, or one whose stored timestamp is older than
the block window at evaluation time `t2`, is accepted regardless of the
gate, and its stored timestamp afterwards is `t2`. -/
theorem should_skip_track_unseen_or_expired (tr : Tracker) (k : String) (t2 : Int)
    (fetched : Option Bool)
    (h : dictGet tr.track_dict k = none ∨
        ∃ t1, dictGet tr.track_dict k = some t1 ∧
          ((t2 - t1 : Int) : Rat) > tr.block_hours * 3600) :
    (should_skip_track tr k t2 fetched).1 = false ∧
    dictGet (should_skip_track tr k t2 fetched).2.track_dict k = some t2 := by
  unfold should_skip_track
  rcases h with hnone | ⟨t1, hsome, hexp⟩
  · have hd : dictGet (fetchIfUnset tr fetched).track_dict k = none := by
      rw [fetchIfUnset_track_dict]; exact hnone
    rw [should_skip_core_unseen _ _ _ hd]
    exact ⟨rfl, by simpa using dictGet_dictSet_self (fetchIfUnset tr fetched).track_dict k t2⟩
  · have hd : dictGet (fetchIfUnset tr fetched).track_dict k = some t1 := by
      rw [fetchIfUnset_track_dict]; exact hsome
    have hx : ((t2 - t1 : Int) : Rat) > (fetchIfUnset tr fetched).block_hours * 3600 := by
      rw [fetchIfUnset_block_hours]; exact hexp
    rw [should_skip_core_expired _ _ _ _ hd hx]
    exact ⟨rfl, by simpa using dictGet_dictSet_self (fetchIfUnset tr fetched).track_dict k t2⟩

/-- Witness for claim C3 at a concrete expired input (gate true, so the
gate is indeed ignored). -/
theorem should_skip_track_unseen_or_expired_witness :
    (should_skip_track ⟨"p", "g", some true, 24, [("song", 0)]⟩ "song" 90000 none).1 = false ∧
    dictGet (should_skip_track ⟨"p", "g", some true, 24, [("song", 0)]⟩
        "song" 90000 none).2.track_dict "song" = some 90000 :=
  should_skip_track_unseen_or_expired ⟨"p", "g", some true, 24, [("song", 0)]⟩ "song" 90000 none
    (Or.inr ⟨0, by decide, by norm_num⟩)

/-! ### spotify.py: Tracker.cleanup_tracks (lines 126-144) -/

/-- On-disk state of the per-player pickle file. -/
inductive FileState where
  | absent
  | valid (d : List (String × Int))
  | truncated
deriving DecidableEq, Repr

/-- Result of one `cleanup_tracks` call: the tracker after the sweep, the
file afterwards, and whether an exception propagated out of the method. -/
structure CleanupOutcome where
  tracker : Tracker
  file : FileState
  raised : Bool
deriving DecidableEq, Repr

/-- Line 129: an entry survives the sweep when it is not yet past the
block window. -/
def keepEntry (bh : Rat) (now : Int) (p : String × Int) : Bool :=
  decide (((now - p.2 : Int) : Rat) ≤ bh * 3600)

/-- `Tracker.cleanup_tracks` (lines 126-144).  The pop loop over a copy of
the dict removes exactly the expired entries (order kept), and only then
is the pickle written.  The write is `open(path, "wb")` followed by
`pickle.dump` with no temp file and no exception handler around it: the
open truncates the target no matter what the prior contents `fs` were, and
a failing dump (modelled by `dumpOk = false`) leaves the file truncated and
lets the exception escape the method. -/
def cleanup_tracks (tr : Tracker) (now : Int) (fs : FileState) (dumpOk : Bool) :
    CleanupOutcome :=
  let kept := tr.track_dict.filter (keepEntry tr.block_hours now)
  let tr1 := { tr with track_dict := kept }
  if dumpOk then ⟨tr1, FileState.valid kept, false⟩
  else ⟨tr1, FileState.truncated, true⟩

theorem dictGet_filter_none_of_not_mem (d : List (String × Int)) (p : String × Int → Bool)
    (k : String) (h : k ∉ d.map Prod.fst) : dictGet (d.filter p) k = none := by
  refine dictGet_eq_none_of_not_mem _ _ (fun hmem => h ?_)
  obtain ⟨x, hx, hxk⟩ := List.mem_map.mp hmem
  exact List.mem_map.mpr ⟨x, List.mem_of_mem_filter hx, hxk⟩

theorem dictGet_filter_of_nodup (d : List (String × Int)) (p : String × Int → Bool)
    (hnd : (d.map Prod.fst).Nodup) (k : String) (t : Int) :
    dictGet (d.filter p) k = some t ↔ dictGet d k = some t ∧ p (k, t) = true := by
  induction d with
  | nil => simp [dictGet]
  | cons hd tl ih =>
      obtain ⟨k0, v0⟩ := hd
      simp only [List.map_cons, List.nodup_cons] at hnd
      by_cases hk : k0 = k
      · subst hk
        rcases hp : p (k0, v0) with _ | _
        · have hfe : ((k0, v0) :: tl).filter p = tl.filter p := by
            simp [List.filter_cons, hp]
          have hnone : dictGet (tl.filter p) k0 = none :=
            dictGet_filter_none_of_not_mem tl p k0 hnd.1
          rw [hfe, hnone]
          constructor
          · intro h; cases h
          · rintro ⟨hsome, hpt⟩
            have hv : v0 = t := by simpa [dictGet] using hsome
            subst hv
            rw [hp] at hpt
            cases hpt
        · have hfe : ((k0, v0) :: tl).filter p = (k0, v0) :: tl.filter p := by
            simp [List.filter_cons, hp]
          rw [hfe]
          simp only [dictGet, if_pos rfl]
          constructor
          · intro hsome
            refine ⟨hsome, ?_⟩
            have hv : v0 = t := by simpa using hsome
            subst hv
            exact hp
          · rintro ⟨hsome, _⟩
            exact hsome
      · have step : dictGet (((k0, v0) :: tl).filter p) k = dictGet (tl.filter p) k := by
          rcases hp : p (k0, v0) with _ | _
          · simp [List.filter_cons, hp]
          · simp [List.filter_cons, hp, dictGet, hk]
        rw [step]
        simp only [dictGet, if_neg hk]
        exact ih hnd.2

/-- Claim C4 counterexample: with one expired entry on record, a prior
valid on-disk copy, and a failing dump, `cleanup_tracks` leaves the file
truncated (the prior copy is destroyed, since `open(.., "wb")` truncates
before `pickle.dump` writes) and the exception propagates out of the
method instead of being logged and swallowed. -/
theorem cleanup_tracks_counterexample :
    (cleanup_tracks ⟨"p", "g", none, 24, [("song", 0)]⟩ 10
        (FileState.valid [("song", 0)]) false).file ≠ FileState.valid [("song", 0)] ∧
    (cleanup_tracks ⟨"p", "g", none, 24, [("song", 0)]⟩ 10
        (FileState.valid [("song", 0)]) false).raised = true := by
  decide

/-- Claim C4 (amended): `cleanup_tracks` first completes the in-memory
sweep, keeping exactly the entries within the block window, and then
rewrites the pickle file in place.  On a successful dump the file holds
exactly the surviving entries; on a failing dump the file is left
truncated (the prior on-disk copy is NOT preserved, there being no
temp-file-and-replace step) and the exception propagates out of the
method. -/
theorem cleanup_tracks_behaviour (tr : Tracker) (now : Int) (fs : FileState) (dumpOk : Bool)
    (hnd : (tr.track_dict.map Prod.fst).Nodup) :
    (∀ k t, dictGet (cleanup_tracks tr now fs dumpOk).tracker.track_dict k = some t ↔
        dictGet tr.track_dict k = some t ∧
          ((now - t : Int) : Rat) ≤ tr.block_hours * 3600) ∧
    (dumpOk = true → (cleanup_tracks tr now fs dumpOk).file =
        FileState.valid ((cleanup_tracks tr now fs dumpOk).tracker.track_dict) ∧
      (cleanup_tracks tr now fs dumpOk).raised = false) ∧
    (dumpOk = false → (cleanup_tracks tr now fs dumpOk).file = FileState.truncated ∧
      (cleanup_tracks tr now fs dumpOk).raised = true) := by
  have hdict : (cleanup_tracks tr now fs dumpOk).tracker.track_dict =
      tr.track_dict.filter (keepEntry tr.block_hours now) := by
    cases dumpOk <;> rfl
  refine ⟨?_, ?_, ?_⟩
  · intro k t
    rw [hdict, dictGet_filter_of_nodup tr.track_dict _ hnd k t]
    unfold keepEntry
    simp
  · intro h; subst h
    exact ⟨by rw [hdict]; rfl, rfl⟩
  · intro h; subst h
    exact ⟨rfl, rfl⟩

/-- Witness for the amended claim C4 at a concrete input, both dump
outcomes visible through the `dumpOk` flag set to false. -/
theorem cleanup_tracks_behaviour_witness :
    (∀ k t, dictGet (cleanup_tracks ⟨"p", "g", none, 24, [("song", 0)]⟩ 10
          (FileState.valid [("song", 0)]) false).tracker.track_dict k = some t ↔
        dictGet [("song", 0)] k = some t ∧
          ((10 - t : Int) : Rat) ≤ (24 : Rat) * 3600) ∧
    (false = true → (cleanup_tracks ⟨"p", "g", none, 24, [("song", 0)]⟩ 10
          (FileState.valid [("song", 0)]) false).file =
        FileState.valid ((cleanup_tracks ⟨"p", "g", none, 24, [("song", 0)]⟩ 10
          (FileState.valid [("song", 0)]) false).tracker.track_dict) ∧
      (cleanup_tracks ⟨"p", "g", none, 24, [("song", 0)]⟩ 10
          (FileState.valid [("song", 0)]) false).raised = false) ∧
    (false = false → (cleanup_tracks ⟨"p", "g", none, 24, [("song", 0)]⟩ 10
          (FileState.valid [("song", 0)]) false).file = FileState.truncated ∧
      (cleanup_tracks ⟨"p", "g", none, 24, [("song", 0)]⟩ 10
          (FileState.valid [("song", 0)]) false).raised = true) :=
  cleanup_tracks_behaviour ⟨"p", "g", none, 24, [("song", 0)]⟩ 10
    (FileState.valid [("song", 0)]) false (by decide)

/-! ### tempest.py: MQTTPublisher (lines 94-255) -/

/-- A message published to the MQTT broker, tagged with the sensor key it
concerns.  The JSON discovery payload (lines 195-218) is a function of the
sensor name and the static metadata table and is not inspected by any
claim, so a config message is identified by its topic. -/
inductive Msg where
  | config (sensor : String) (topic : String)
  | state (sensor : String) (topic : String) (payload : String)
deriving DecidableEq, Repr

/-- The mutable state of an `MQTTPublisher`: whether `self.client` is set,
`last_values`, `sensors_configured` and `update_count`. -/
structure MQTTPublisher where
  clientConnected : Bool
  last_values : List (String × Option String)
  sensors_configured : List String
  update_count : Nat
deriving DecidableEq, Repr

/-- Publisher state right after `__init__` (lines 111-155): empty caches,
counter zero; `connected` records whether `_setup_client` obtained a
client. -/
def initialPublisher (connected : Bool) : MQTTPublisher :=
  ⟨connected, [], [], 0⟩

/-- Python `self.last_values.get(sensor)`: a missing key and a stored
`None` both come back as `None`. -/
def pyGet (d : List (String × Option String)) (k : String) : Option String :=
  match dictGet d k with
  | none => none
  | some v => v

def stateTopic (sensor : String) : String :=
  "homeassistant/sensor/tempest_" ++ sensor ++ "/state"

def configTopic (sensor : String) : String :=
  "homeassistant/sensor/tempest_" ++ sensor ++ "/config"

/-- Line 226: scalar values are sent as `str(value)` and absent values as
the empty string.  Structured values are serialized with `json.dumps` and
are represented here already as their serialized text. -/
def serializeValue (v : Option String) : String :=
  match v with
  | none => ""
  | some s => s

/-- `MQTTPublisher.publish_sensor` (lines 173-228): skip when no client or
when the value is unchanged and not forced; otherwise record the value,
publish the discovery config on the first publish of this key, then
publish the state message. -/
def publish_sensor (m : MQTTPublisher) (sensor : String) (value : Option String)
    (force : Bool) : MQTTPublisher × List Msg :=
  if m.clientConnected = false then (m, [])
  else if pyGet m.last_values sensor = value ∧ force = false then (m, [])
  else
    let lv := dictSet m.last_values sensor value
    if sensor ∈ m.sensors_configured then
      ({ m with last_values := lv },
       [Msg.state sensor (stateTopic sensor) (serializeValue value)])
    else
      ({ m with last_values := lv, sensors_configured := sensor :: m.sensors_configured },
       [Msg.config sensor (configTopic sensor),
        Msg.state sensor (stateTopic sensor) (serializeValue value)])

/-- The `for k, v in weather_data.items()` loop of `publish_weather`
(lines 246-248). -/
def publishList (m : MQTTPublisher) (wd : List (String × Option String)) (force : Bool) :
    MQTTPublisher × List Msg :=
  match wd with
  | [] => (m, [])
  | (k, v) :: rest =>
      let r1 := publish_sensor m k v force
      let r2 := publishList r1.1 rest force
      (r2.1, r1.2 ++ r2.2)

/-- `MQTTPublisher.publish_weather` (lines 230-248).  With no client the
method calls `_setup_client` and returns without publishing; `setupOk` is
the outcome of that reconnect attempt.  Otherwise the cycle counter is
bumped and the cycle is forced when it is a multiple of 60. -/
def publish_weather (m : MQTTPublisher) (wd : List (String × Option String))
    (setupOk : Bool) : MQTTPublisher × List Msg :=
  if m.clientConnected = false then ({ m with clientConnected := setupOk }, [])
  else
    let m1 := { m with update_count := m.update_count + 1 }
    publishList m1 wd (decide (m1.update_count % 60 = 0))

/-- A process lifetime of `publish_sensor` calls, for the discovery-once
invariant. -/
def runPublishes (m : MQTTPublisher) :
    List (String × Option String × Bool) → MQTTPublisher × List Msg
  | [] => (m, [])
  | (k, v, f) :: rest =>
      let r1 := publish_sensor m k v f
      let r2 := runPublishes r1.1 rest
      (r2.1, r1.2 ++ r2.2)

/-- Iterate `publish_weather` on the same readings, keeping only the
publisher state. -/
def iterPW (m : MQTTPublisher) (wd : List (String × Option String)) : Nat → MQTTPublisher
  | 0 => m
  | n + 1 => iterPW (publish_weather m wd false).1 wd n

/-- Number of state messages for key `k` in a message list. -/
def stateCount (msgs : List Msg) (k : String) : Nat :=
  (msgs.filter fun m => match m with
    | Msg.state s _ _ => decide (s = k)
    | _ => false).length

/-- Number of discovery/config messages for key `k` in a message list. -/
def configCount (msgs : List Msg) (k : String) : Nat :=
  (msgs.filter fun m => match m with
    | Msg.config s _ => decide (s = k)
    | _ => false).length

theorem stateCount_append (a b : List Msg) (k : String) :
    stateCount (a ++ b) k = stateCount a k + stateCount b k := by
  simp [stateCount, List.filter_append]

theorem configCount_append (a b : List Msg) (k : String) :
    configCount (a ++ b) k = configCount a k + configCount b k := by
  simp [configCount, List.filter_append]

theorem pyGet_dictSet_self (d : List (String × Option String)) (k : String)
    (v : Option String) : pyGet (dictSet d k v) k = v := by
  unfold pyGet
  rw [dictGet_dictSet_self]

theorem pyGet_dictSet_ne (d : List (String × Option String)) (k k' : String)
    (v : Option String) (h : k' ≠ k) : pyGet (dictSet d k v) k' = pyGet d k' := by
  unfold pyGet
  rw [dictGet_dictSet_ne d k k' v h]

theorem publish_sensor_noop (m : MQTTPublisher) (k : String) (v : Option String)
    (hc : m.clientConnected = true) (hval : pyGet m.last_values k = v) :
    publish_sensor m k v false = (m, []) := by
  unfold publish_sensor
  rw [if_neg (by simp [hc]), if_pos ⟨hval, rfl⟩]

theorem publish_sensor_pub (m : MQTTPublisher) (k : String) (v : Option String) (f : Bool)
    (hc : m.clientConnected = true)
    (h : ¬ (pyGet m.last_values k = v ∧ f = false)) :
    publish_sensor m k v f =
      if k ∈ m.sensors_configured then
        ({ m with last_values := dictSet m.last_values k v },
         [Msg.state k (stateTopic k) (serializeValue v)])
      else
        ({ m with
            last_values := dictSet m.last_values k v
            sensors_configured := k :: m.sensors_configured },
         [Msg.config k (configTopic k),
          Msg.state k (stateTopic k) (serializeValue v)]) := by
  unfold publish_sensor
  rw [if_neg (by simp [hc]), if_neg h]

theorem publish_sensor_connected (m : MQTTPublisher) (k : String) (v : Option String)
    (f : Bool) : (publish_sensor m k v f).1.clientConnected = m.clientConnected := by
  unfold publish_sensor
  split_ifs <;> rfl

/-- Claim C5 counterexample: from a fresh connected publisher, publishing
`None` twice for the same key produces zero state messages, not exactly
one: `last_values.get(sensor)` yields `None` for an unseen key, which
compares equal to the `None` value, so even the first call is a no-op.
The program does hit this case: `weather_data` is initialized with
`dict.fromkeys`, so absent readings are published as `None`. -/
theorem mirror_idempotent_counterexample :
    stateCount ((publish_sensor (initialPublisher true) "temperature" none false).2 ++
        (publish_sensor (publish_sensor (initialPublisher true) "temperature" none false).1
          "temperature" none false).2) "temperature" = 0 ∧
    stateCount ((publish_sensor (initialPublisher true) "temperature" none false).2 ++
        (publish_sensor (publish_sensor (initialPublisher true) "temperature" none false).1
          "temperature" none false).2) "temperature" ≠ 1 := by
  decide

/-- Claim C5 (amended): two successive `publish_sensor` calls with the
same value and no force emit exactly one state message for the key when
the value differs from the recorded last value at the outset (an unseen
key records `None`, so a first publish of `None` is itself a no-op and the
pair emits zero); the second call is always a no-op that returns the state
of the first call unchanged and emits nothing. -/
theorem mirror_idempotent (m : MQTTPublisher) (k : String) (v : Option String)
    (hc : m.clientConnected = true) :
    stateCount ((publish_sensor m k v false).2 ++
        (publish_sensor (publish_sensor m k v false).1 k v false).2) k =
      (if pyGet m.last_values k = v then 0 else 1) ∧
    publish_sensor (publish_sensor m k v false).1 k v false =
      ((publish_sensor m k v false).1, []) := by
  by_cases hval : pyGet m.last_values k = v
  · have h1 := publish_sensor_noop m k v hc hval
    simp [h1, hval, stateCount]
  · have h1 := publish_sensor_pub m k v false hc (fun hcon => hval hcon.1)
    have hc1 : (publish_sensor m k v false).1.clientConnected = true := by
      rw [publish_sensor_connected]; exact hc
    have hval1 : pyGet (publish_sensor m k v false).1.last_values k = v := by
      rw [h1]
      split_ifs <;> simp [pyGet_dictSet_self]
    have h2 := publish_sensor_noop (publish_sensor m k v false).1 k v hc1 hval1
    refine ⟨?_, h2⟩
    rw [h2, if_neg hval]
    simp only [List.append_nil]
    rw [h1]
    split_ifs <;> simp [stateCount]

/-- Witness for the amended claim C5 at a concrete input where the value
is fresh, so exactly one state message goes out. -/
theorem mirror_idempotent_witness :
    stateCount ((publish_sensor (initialPublisher true) "humidity" (some "40") false).2 ++
        (publish_sensor
          (publish_sensor (initialPublisher true) "humidity" (some "40") false).1
          "humidity" (some "40") false).2) "humidity" =
      (if pyGet (initialPublisher true).last_values "humidity" = some "40" then 0 else 1) ∧
    publish_sensor (publish_sensor (initialPublisher true) "humidity" (some "40") false).1
        "humidity" (some "40") false =
      ((publish_sensor (initialPublisher true) "humidity" (some "40") false).1, []) :=
  mirror_idempotent (initialPublisher true) "humidity" (some "40") rfl

theorem publish_sensor_configured_mono (m : MQTTPublisher) (k0 : String)
    (v : Option String) (f : Bool) (k : String) (h : k ∈ m.sensors_configured) :
    k ∈ (publish_sensor m k0 v f).1.sensors_configured := by
  unfold publish_sensor
  split_ifs <;> simp [h]

theorem configCount_publish_registered (m : MQTTPublisher) (k0 : String)
    (v : Option String) (f : Bool) (k : String) (h : k ∈ m.sensors_configured) :
    configCount (publish_sensor m k0 v f).2 k = 0 := by
  unfold publish_sensor
  split_ifs with h1 h2 h3
  · simp [configCount]
  · simp [configCount]
  · simp [configCount]
  · have hne : ¬ (k0 = k) := fun hh => h3 (hh ▸ h)
    simp [configCount, hne]

theorem publish_sensor_config_step (m : MQTTPublisher) (k0 : String)
    (v : Option String) (f : Bool) (k : String) (hk : k ∉ m.sensors_configured) :
    (configCount (publish_sensor m k0 v f).2 k = 0 ∧
      k ∉ (publish_sensor m k0 v f).1.sensors_configured) ∨
    (configCount (publish_sensor m k0 v f).2 k ≤ 1 ∧
      k ∈ (publish_sensor m k0 v f).1.sensors_configured) := by
  unfold publish_sensor
  split_ifs with h1 h2 h3
  · exact Or.inl ⟨by simp [configCount], hk⟩
  · exact Or.inl ⟨by simp [configCount], hk⟩
  · exact Or.inl ⟨by simp [configCount], hk⟩
  · by_cases hkk : k0 = k
    · subst hkk
      exact Or.inr ⟨by simp [configCount], by simp⟩
    · refine Or.inl ⟨by simp [configCount, hkk], ?_⟩
      have hne : ¬ (k = k0) := fun hh => hkk hh.symm
      simp [hk, hne]

theorem runPublishes_configured_zero
    (ops : List (String × Option String × Bool)) :
    ∀ m k, k ∈ m.sensors_configured → configCount (runPublishes m ops).2 k = 0 := by
  induction ops with
  | nil => intro m k _; simp [runPublishes, configCount]
  | cons op rest ih =>
      intro m k h
      obtain ⟨k0, v, f⟩ := op
      simp only [runPublishes]
      rw [configCount_append, configCount_publish_registered m k0 v f k h,
        ih _ k (publish_sensor_configured_mono m k0 v f k h)]

theorem runPublishes_config_once
    (ops : List (String × Option String × Bool)) :
    ∀ m k, configCount (runPublishes m ops).2 k ≤ 1 := by
  induction ops with
  | nil => intro m k; simp [runPublishes, configCount]
  | cons op rest ih =>
      intro m k
      obtain ⟨k0, v, f⟩ := op
      simp only [runPublishes]
      rw [configCount_append]
      by_cases hk : k ∈ m.sensors_configured
      · rw [configCount_publish_registered m k0 v f k hk,
          runPublishes_configured_zero rest _ k (publish_sensor_configured_mono m k0 v f k hk)]
        simp
      · rcases publish_sensor_config_step m k0 v f k hk with ⟨h0, _⟩ | ⟨hle, hmem⟩
        · rw [h0]
          simpa using ih (publish_sensor m k0 v f).1 k
        · rw [runPublishes_configured_zero rest _ k hmem]
          simpa using hle

/-- Claim C6 counterexample: with `v1 = None` (an absent reading, which
the program really publishes since `weather_data` starts as
`dict.fromkeys`) and `v2 = "70"`, the pair of publishes from a fresh
connected publisher emits one config message but only ONE state message,
not two: the first call is a no-op because the unseen key reads back as
`None`, equal to `v1`. -/
theorem discovery_once_counterexample :
    configCount ((publish_sensor (initialPublisher true) "temperature" none false).2 ++
        (publish_sensor (publish_sensor (initialPublisher true) "temperature" none false).1
          "temperature" (some "70") false).2) "temperature" = 1 ∧
    stateCount ((publish_sensor (initialPublisher true) "temperature" none false).2 ++
        (publish_sensor (publish_sensor (initialPublisher true) "temperature" none false).1
          "temperature" (some "70") false).2) "temperature" = 1 ∧
    stateCount ((publish_sensor (initialPublisher true) "temperature" none false).2 ++
        (publish_sensor (publish_sensor (initialPublisher true) "temperature" none false).1
          "temperature" (some "70") false).2) "temperature" ≠ 2 := by
  decide

/-- Claim C6 (amended): the discovery/config message for a key goes out at
most once over any sequence of `publish_sensor` calls, and never again
once the key is in `sensors_configured`; the scenario `publish(k, v1)`
then `publish(k, v2)` with `v1` distinct from `v2` emits exactly one
config and two state messages provided the first call actually publishes,
i.e. `v1` differs from the recorded last value for the key (unseen keys
record `None`, so `v1 = None` from a fresh state gives only one state
message). -/
theorem discovery_once (m : MQTTPublisher) (k : String) (v1 v2 : Option String)
    (ops : List (String × Option String × Bool))
    (hc : m.clientConnected = true) (hreg : k ∉ m.sensors_configured)
    (hnew : pyGet m.last_values k ≠ v1) (hne : v1 ≠ v2) :
    configCount (runPublishes m ops).2 k ≤ 1 ∧
    (∀ (m2 : MQTTPublisher) (ops2 : List (String × Option String × Bool)),
        k ∈ m2.sensors_configured → configCount (runPublishes m2 ops2).2 k = 0) ∧
    configCount ((publish_sensor m k v1 false).2 ++
        (publish_sensor (publish_sensor m k v1 false).1 k v2 false).2) k = 1 ∧
    stateCount ((publish_sensor m k v1 false).2 ++
        (publish_sensor (publish_sensor m k v1 false).1 k v2 false).2) k = 2 := by
  refine ⟨runPublishes_config_once ops m k,
    fun m2 ops2 h2 => runPublishes_configured_zero ops2 m2 k h2, ?_⟩
  have h1 := publish_sensor_pub m k v1 false hc (fun hcon => hnew hcon.1)
  rw [if_neg hreg] at h1
  have hc1 : (publish_sensor m k v1 false).1.clientConnected = true := by
    rw [publish_sensor_connected]; exact hc
  have hval1 : pyGet (publish_sensor m k v1 false).1.last_values k = v1 := by
    rw [h1]; simp [pyGet_dictSet_self]
  have h2 := publish_sensor_pub (publish_sensor m k v1 false).1 k v2 false hc1
    (fun hcon => hne ((hval1 ▸ hcon.1 : v1 = v2)))
  have hmem : k ∈ (publish_sensor m k v1 false).1.sensors_configured := by
    rw [h1]; simp
  rw [if_pos hmem] at h2
  rw [h2, h1]
  constructor <;> simp [configCount, stateCount]

/-- Witness for the amended claim C6 at a concrete input with a fresh
string value, so one config and two state messages go out. -/
theorem discovery_once_witness :
    configCount ((runPublishes (initialPublisher true) [("t", some "1", false)]).2) "t" ≤ 1 ∧
    (∀ (m2 : MQTTPublisher) (ops2 : List (String × Option String × Bool)),
        "t" ∈ m2.sensors_configured → configCount (runPublishes m2 ops2).2 "t" = 0) ∧
    configCount ((publish_sensor (initialPublisher true) "t" (some "1") false).2 ++
        (publish_sensor (publish_sensor (initialPublisher true) "t" (some "1") false).1
          "t" (some "2") false).2) "t" = 1 ∧
    stateCount ((publish_sensor (initialPublisher true) "t" (some "1") false).2 ++
        (publish_sensor (publish_sensor (initialPublisher true) "t" (some "1") false).1
          "t" (some "2") false).2) "t" = 2 :=
  discovery_once (initialPublisher true) "t" (some "1") (some "2")
    [("t", some "1", false)] rfl (by simp [initialPublisher]) (by decide) (by decide)

theorem publish_sensor_forced (m : MQTTPublisher) (k : String) (v : Option String)
    (hc : m.clientConnected = true) :
    stateCount (publish_sensor m k v true).2 k = 1 ∧
    pyGet (publish_sensor m k v true).1.last_values k = v := by
  have h := publish_sensor_pub m k v true hc (by simp)
  rw [h]
  split_ifs <;> constructor <;> simp [stateCount, pyGet_dictSet_self]

theorem publish_sensor_other_key (m : MQTTPublisher) (k0 : String) (v : Option String)
    (f : Bool) (k : String) (h : k ≠ k0) :
    stateCount (publish_sensor m k0 v f).2 k = 0 ∧
    pyGet (publish_sensor m k0 v f).1.last_values k = pyGet m.last_values k := by
  have hne : ¬ (k0 = k) := fun hh => h hh.symm
  unfold publish_sensor
  split_ifs <;>
    constructor <;>
    simp [stateCount, hne, pyGet_dictSet_ne m.last_values k0 k v h]

theorem publishList_connected (wd : List (String × Option String)) :
    ∀ (m : MQTTPublisher) (f : Bool),
      (publishList m wd f).1.clientConnected = m.clientConnected := by
  induction wd with
  | nil => intro m f; rfl
  | cons hd tl ih =>
      intro m f
      obtain ⟨k, v⟩ := hd
      simp only [publishList]
      rw [ih (publish_sensor m k v f).1 f, publish_sensor_connected]

theorem publishList_other_key (wd : List (String × Option String)) :
    ∀ (m : MQTTPublisher) (f : Bool) (k : String), k ∉ wd.map Prod.fst →
      stateCount (publishList m wd f).2 k = 0 ∧
      pyGet (publishList m wd f).1.last_values k = pyGet m.last_values k := by
  induction wd with
  | nil => intro m f k _; exact ⟨rfl, rfl⟩
  | cons hd tl ih =>
      intro m f k hk
      obtain ⟨k0, v⟩ := hd
      simp only [List.map_cons, List.mem_cons] at hk
      push_neg at hk
      obtain ⟨hk0, hktl⟩ := hk
      obtain ⟨hs, hp⟩ := publish_sensor_other_key m k0 v f k hk0
      obtain ⟨hs2, hp2⟩ := ih (publish_sensor m k0 v f).1 f k hktl
      simp only [publishList]
      rw [stateCount_append, hs, hs2, hp2, hp]
      exact ⟨rfl, rfl⟩

theorem publishList_forced (wd : List (String × Option String)) :
    ∀ (m : MQTTPublisher), m.clientConnected = true → (wd.map Prod.fst).Nodup →
      ∀ (k : String) (v : Option String), (k, v) ∈ wd →
        stateCount (publishList m wd true).2 k = 1 ∧
        pyGet (publishList m wd true).1.last_values k = v := by
  induction wd with
  | nil => intro m _ _ k v hmem; cases hmem
  | cons hd tl ih =>
      intro m hc hnd k v hmem
      obtain ⟨k0, v0⟩ := hd
      simp only [List.map_cons, List.nodup_cons] at hnd
      rcases List.mem_cons.mp hmem with heq | htl
      · obtain ⟨hkk, hvv⟩ := Prod.mk.injEq .. ▸ heq
        subst hkk; subst hvv
        obtain ⟨hs, hp⟩ := publish_sensor_forced m k v hc
        obtain ⟨hs2, hp2⟩ := publishList_other_key tl (publish_sensor m k v true).1 true k hnd.1
        simp only [publishList]
        rw [stateCount_append, hs, hs2, hp2, hp]
        exact ⟨rfl, rfl⟩
      · have hk0 : k ≠ k0 := by
          intro hh
          exact hnd.1 (hh ▸ List.mem_map.mpr ⟨(k, v), htl, rfl⟩)
        obtain ⟨hs, hp⟩ := publish_sensor_other_key m k0 v0 true k hk0
        have hc1 : (publish_sensor m k0 v0 true).1.clientConnected = true := by
          rw [publish_sensor_connected]; exact hc
        obtain ⟨hs2, hp2⟩ := ih (publish_sensor m k0 v0 true).1 hc1 hnd.2 k v htl
        simp only [publishList]
        rw [stateCount_append, hs, hs2, hp2]
        exact ⟨rfl, rfl⟩

set_option maxRecDepth 100000 in
/-- Claim C7 counterexample: from a fresh connected publisher with one
sensor, after exactly 60 publish cycles the NEXT call (the 61st, with
`update_count` becoming 61) is not forced and, with the value unchanged,
emits no message at all.  The forced cycle is the 60th itself
(`update_count % 60 == 0`). -/
theorem forced_resync_counterexample :
    (iterPW (initialPublisher true) [("t", some "1")] 60).update_count = 60 ∧
    (publish_weather (iterPW (initialPublisher true) [("t", some "1")] 60)
        [("t", some "1")] false).2 = [] := by
  decide

/-- Claim C7 (amended): a connected `publish_weather` call whose bumped
`update_count` is a multiple of 60 — that is, every 60th connected call,
so the forced call comes after exactly 59 cycles, not after 60 — is
forced: it emits exactly one state message for every key of the supplied
weather data even when the value equals the recorded last value, and
updates the recorded last value for each. -/
theorem forced_resync (m : MQTTPublisher) (wd : List (String × Option String))
    (setupOk : Bool) (hc : m.clientConnected = true)
    (hforce : (m.update_count + 1) % 60 = 0) (hnd : (wd.map Prod.fst).Nodup)
    (k : String) (v : Option String) (hmem : (k, v) ∈ wd) :
    stateCount (publish_weather m wd setupOk).2 k = 1 ∧
    pyGet (publish_weather m wd setupOk).1.last_values k = v := by
  have hrw : publish_weather m wd setupOk =
      publishList { m with update_count := m.update_count + 1 } wd true := by
    unfold publish_weather
    rw [if_neg (by simp [hc])]
    simp [hforce]
  rw [hrw]
  exact publishList_forced wd { m with update_count := m.update_count + 1 } hc hnd k v hmem

/-- Witness for the amended claim C7: a publisher that has completed 59
cycles is forced on its 60th call and republishes an unchanged value. -/
theorem forced_resync_witness :
    stateCount (publish_weather ⟨true, [("t", some "1")], ["t"], 59⟩
        [("t", some "1")] false).2 "t" = 1 ∧
    pyGet (publish_weather ⟨true, [("t", some "1")], ["t"], 59⟩
        [("t", some "1")] false).1.last_values "t" = some "1" :=
  forced_resync ⟨true, [("t", some "1")], ["t"], 59⟩ [("t", some "1")] false rfl
    (by decide) (by decide) "t" (some "1") (by decide)

/-- Claim C9: from the initial counter 1, the first `get_new_tx_id` call
returns 2; below 65535 each call returns the previous id plus one; at
65535 the counter wraps to 1; every id returned from a positive counter
lies in [1, 65535] and is never 0. -/
theorem tx_id_assignment :
    get_new_tx_id tx_id_init = 2 ∧
    (∀ t : Nat, 1 ≤ t → t < 65535 → get_new_tx_id t = t + 1) ∧
    (∀ t : Nat, 65535 ≤ t → get_new_tx_id t = 1) ∧
    (∀ t : Nat, 1 ≤ t →
      1 ≤ get_new_tx_id t ∧ get_new_tx_id t ≤ 65535 ∧ get_new_tx_id t ≠ 0) := by
  refine ⟨rfl, ?_, ?_, ?_⟩
  · intro t h1 h2
    unfold get_new_tx_id
    rw [if_neg (by omega)]
  · intro t h
    unfold get_new_tx_id
    rw [if_pos h]
  · intro t h1
    unfold get_new_tx_id
    split_ifs with h <;> omega

/-- Witness for claim C9 at concrete counter values, including the wrap
at 65535. -/
theorem tx_id_assignment_witness :
    get_new_tx_id 5 = 6 ∧ get_new_tx_id 65535 = 1 ∧
    (1 ≤ get_new_tx_id 2 ∧ get_new_tx_id 2 ≤ 65535 ∧ get_new_tx_id 2 ≠ 0) :=
  ⟨tx_id_assignment.2.1 5 (by decide) (by decide),
   tx_id_assignment.2.2.1 65535 (by decide),
   tx_id_assignment.2.2.2 2 (by decide)⟩

/-! ### spotify.py: connection handshake, subscribe phase and the outer
retry loop of `spotify_monitor` (lines 166-328) -/

/-- An inbound websocket message as the handshake and subscribe phases
read it: only its `type` and `success` fields matter there, and a missing
field (`none`) raises `KeyError` when accessed, which the outer handler
turns into a reconnect. -/
structure WsIn where
  msgType : Option String
  success : Option Bool
deriving DecidableEq, Repr

/-- Lines 176-197: receive the greeting; when it is `auth_required`, send
credentials and demand `auth_ok` back; anything else leaves
`connected_to_ws` false and raises.  Returns the unread remainder of the
inbound script on success. -/
def handshake (script : List WsIn) : Except Unit (List WsIn) :=
  match script with
  | [] => Except.error ()
  | first :: rest =>
      match first.msgType with
      | none => Except.error ()
      | some t =>
          if t = "auth_required" then
            match rest with
            | [] => Except.error ()
            | auth :: rest2 =>
                match auth.msgType with
                | none => Except.error ()
                | some t2 => if t2 = "auth_ok" then Except.ok rest2 else Except.error ()
          else Except.error ()

/-- Lines 199-242: one `subscribe_trigger` round trip per entity.  A fresh
transaction id is taken for each request; the next inbound message is read
as the reply and its `success` field checked — `false` or a missing field
raises (`ConnectionError` or `KeyError`), ending the attempt.  On error
the advanced counter value is carried out, since the Python counter is a
module global that survives the exception. -/
def subscribeLoop : Nat → Nat → List WsIn → Except Nat (Nat × List WsIn)
  | 0, tx, script => Except.ok (tx, script)
  | n + 1, tx, script =>
      let tx1 := get_new_tx_id tx
      match script with
      | [] => Except.error tx1
      | r :: rest =>
          match r.success with
          | none => Except.error tx1
          | some true => subscribeLoop n tx1 rest
          | some false => Except.error tx1

/-- One pass through the `async with` block up to the end of the
subscribe phase (lines 170-242): handshake, then one subscribe round trip
per monitored player, then one per gate helper.  `Except.ok` means the
attempt reached the `Active` receive loop. -/
def connectionAttempt (nPlayers nGates tx : Nat) (script : List WsIn) :
    Except Nat (Nat × List WsIn) :=
  match handshake script with
  | Except.error _ => Except.error tx
  | Except.ok rest =>
      match subscribeLoop nPlayers tx rest with
      | Except.error txe => Except.error txe
      | Except.ok (tx1, rest1) => subscribeLoop nGates tx1 rest1

/-- Observable events of the outer `while True` loop. -/
inductive LoopEv where
  | attemptFailed
  | sleep (secs : Nat)
  | attemptOk
deriving DecidableEq, Repr

/-- The outer retry loop (lines 166 and 325-328): each connection attempt
that raises is caught by the `except` handler, which sleeps 60 seconds and
loops; an attempt that reaches the Active phase and later loses the open
socket falls out of the inner loop and reconnects without sleeping. -/
def monitorOuter (nP nG : Nat) : Nat → List (List WsIn) → List LoopEv
  | _, [] => []
  | tx, s :: rest =>
      match connectionAttempt nP nG tx s with
      | Except.error txe =>
          LoopEv.attemptFailed :: LoopEv.sleep 60 :: monitorOuter nP nG txe rest
      | Except.ok (tx1, _) => LoopEv.attemptOk :: monitorOuter nP nG tx1 rest

theorem subscribeLoop_all_true :
    ∀ (n : Nat) (good : List WsIn) (tx : Nat) (tail : List WsIn),
      (∀ w ∈ good, w.success = some true) → n ≤ good.length →
      ∃ tx1, subscribeLoop n tx (good ++ tail) = Except.ok (tx1, good.drop n ++ tail) := by
  intro n
  induction n with
  | zero => intro good tx tail _ _; exact ⟨tx, rfl⟩
  | succ n ih =>
      intro good tx tail hgood hlen
      cases good with
      | nil => cases hlen
      | cons g gs =>
          have hg : g.success = some true := hgood g (List.mem_cons_self g gs)
          have hgs : ∀ w ∈ gs, w.success = some true :=
            fun w hw => hgood w (List.mem_cons_of_mem g hw)
          have hlen2 : n ≤ gs.length := Nat.le_of_succ_le_succ hlen
          obtain ⟨tx1, h1⟩ := ih gs (get_new_tx_id tx) tail hgs hlen2
          refine ⟨tx1, ?_⟩
          simp only [subscribeLoop, List.cons_append, hg]
          exact h1

theorem subscribeLoop_nack :
    ∀ (good : List WsIn) (n tx : Nat) (bad : WsIn) (rest : List WsIn),
      (∀ w ∈ good, w.success = some true) → good.length < n →
      bad.success = some false →
      ∃ txe, subscribeLoop n tx (good ++ bad :: rest) = Except.error txe := by
  intro good
  induction good with
  | nil =>
      intro n tx bad rest _ hlen hbad
      cases n with
      | zero => cases hlen
      | succ n =>
          refine ⟨get_new_tx_id tx, ?_⟩
          simp only [subscribeLoop, List.nil_append, hbad]
  | cons g gs ih =>
      intro n tx bad rest hgood hlen hbad
      cases n with
      | zero => cases hlen
      | succ n =>
          have hg : g.success = some true := hgood g (List.mem_cons_self g gs)
          have hgs : ∀ w ∈ gs, w.success = some true :=
            fun w hw => hgood w (List.mem_cons_of_mem g hw)
          obtain ⟨txe, h1⟩ := ih n (get_new_tx_id tx) bad rest hgs
            (Nat.lt_of_succ_lt_succ hlen) hbad
          refine ⟨txe, ?_⟩
          simp only [subscribeLoop, List.cons_append, hg]
          exact h1

/-- Claim C8: a subscribe reply with `success == false` (after any run of
successful replies, anywhere in the player or gate subscribe phases), and
likewise a greeting whose follow-up is not `auth_ok`, abort the connection
attempt; the outer loop catches the raise, sleeps the fixed 60 seconds and
carries on with the next attempt — the loop itself never dies. -/
theorem subscribe_nack_reconnects (nP nG tx : Nat) (good : List WsIn) (bad : WsIn)
    (rest : List WsIn) (scripts : List (List WsIn))
    (hgood : ∀ w ∈ good, w.success = some true)
    (hlen : good.length < nP + nG)
    (hbad : bad.success = some false) :
    (∃ txe,
      connectionAttempt nP nG tx
          (⟨some "auth_required", none⟩ :: ⟨some "auth_ok", none⟩ ::
            (good ++ bad :: rest)) = Except.error txe ∧
      monitorOuter nP nG tx
          ((⟨some "auth_required", none⟩ :: ⟨some "auth_ok", none⟩ ::
            (good ++ bad :: rest)) :: scripts) =
        LoopEv.attemptFailed :: LoopEv.sleep 60 :: monitorOuter nP nG txe scripts) ∧
    (∀ badAuth : WsIn, badAuth.msgType ≠ some "auth_ok" → ∀ s2 : List WsIn,
      connectionAttempt nP nG tx (⟨some "auth_required", none⟩ :: badAuth :: s2) =
        Except.error tx ∧
      monitorOuter nP nG tx
          ((⟨some "auth_required", none⟩ :: badAuth :: s2) :: scripts) =
        LoopEv.attemptFailed :: LoopEv.sleep 60 :: monitorOuter nP nG tx scripts) := by
  have hs : handshake (⟨some "auth_required", none⟩ :: ⟨some "auth_ok", none⟩ ::
      (good ++ bad :: rest)) = Except.ok (good ++ bad :: rest) := by
    simp [handshake]
  constructor
  · rcases Nat.lt_or_ge good.length nP with hlt | hge
    · obtain ⟨txe, he⟩ := subscribeLoop_nack good nP tx bad rest hgood hlt hbad
      have hatt : connectionAttempt nP nG tx
          (⟨some "auth_required", none⟩ :: ⟨some "auth_ok", none⟩ ::
            (good ++ bad :: rest)) = Except.error txe := by
        simp only [connectionAttempt, hs, he]
      exact ⟨txe, hatt, by simp only [monitorOuter, hatt]⟩
    · obtain ⟨tx1, h1⟩ := subscribeLoop_all_true nP good tx (bad :: rest) hgood hge
      have hdlen : (good.drop nP).length < nG := by
        rw [List.length_drop]
        omega
      obtain ⟨txe, h2⟩ := subscribeLoop_nack (good.drop nP) nG tx1 bad rest
        (fun w hw => hgood w (List.drop_subset nP good hw)) hdlen hbad
      have hatt : connectionAttempt nP nG tx
          (⟨some "auth_required", none⟩ :: ⟨some "auth_ok", none⟩ ::
            (good ++ bad :: rest)) = Except.error txe := by
        simp only [connectionAttempt, hs, h1, h2]
      exact ⟨txe, hatt, by simp only [monitorOuter, hatt]⟩
  · intro badAuth hba s2
    have hhs : handshake (⟨some "auth_required", none⟩ :: badAuth :: s2) =
        Except.error () := by
      cases hbt : badAuth.msgType with
      | none => simp [handshake, hbt]
      | some t2 =>
          have hne : ¬ (t2 = "auth_ok") := fun hh => hba (by rw [hbt, hh])
          simp [handshake, hbt, hne]
    have hatt : connectionAttempt nP nG tx
        (⟨some "auth_required", none⟩ :: badAuth :: s2) = Except.error tx := by
      simp only [connectionAttempt, hhs]
    exact ⟨hatt, by simp only [monitorOuter, hatt]⟩

/-- Witness for claim C8: one monitored player, a handshake that succeeds,
and a first subscribe reply with `success = false`. -/
theorem subscribe_nack_reconnects_witness :
    (∃ txe,
      connectionAttempt 1 0 1
          (⟨some "auth_required", none⟩ :: ⟨some "auth_ok", none⟩ ::
            (([] : List WsIn) ++ (⟨some "result", some false⟩ : WsIn) :: [])) =
        Except.error txe ∧
      monitorOuter 1 0 1
          ((⟨some "auth_required", none⟩ :: ⟨some "auth_ok", none⟩ ::
            (([] : List WsIn) ++ (⟨some "result", some false⟩ : WsIn) :: [])) :: []) =
        LoopEv.attemptFailed :: LoopEv.sleep 60 :: monitorOuter 1 0 txe []) ∧
    (∀ badAuth : WsIn, badAuth.msgType ≠ some "auth_ok" → ∀ s2 : List WsIn,
      connectionAttempt 1 0 1 (⟨some "auth_required", none⟩ :: badAuth :: s2) =
        Except.error 1 ∧
      monitorOuter 1 0 1
          ((⟨some "auth_required", none⟩ :: badAuth :: s2) :: []) =
        LoopEv.attemptFailed :: LoopEv.sleep 60 :: monitorOuter 1 0 1 []) :=
  subscribe_nack_reconnects 1 0 1 [] ⟨some "result", some false⟩ [] []
    (by intro w hw; cases hw) (by decide) rfl

/-! ### spotify.py: the Active receive loop body (lines 245-314) -/

/-- The `to_state` part of an inbound trigger event: the entity id that
fired, its new state string, and its attribute map. -/
structure EventData where
  entity_id : String
  state : String
  attributes : List (String × String)
deriving DecidableEq, Repr

/-- An outbound `call_service` command (lines 297-304). -/
inductive OutCmd where
  | call_service (id : Nat) (domain service target : String)
deriving DecidableEq, Repr

/-- The mutable state the receive loop works on: `player_dict` (insertion
ordered, one tracker per monitored player) and the global transaction
counter. -/
structure MonitorState where
  players : List (String × Tracker)
  tx : Nat
deriving DecidableEq, Repr

/-- Lines 269-275: `for p in player_dict.values()` with a `break` — set
the gate flag of the first tracker whose helper entity id matches. -/
def setGateFirst : List (String × Tracker) → String → Bool → List (String × Tracker)
  | [], _, _ => []
  | (pid, tr) :: rest, gid, flag =>
      if tr.skip_enabled_id = gid then
        (pid, { tr with skip_enabled := some flag }) :: rest
      else (pid, tr) :: setGateFirst rest gid flag

/-- The value left in the `media_player_id` loop variable once the
subscribe loop of line 199 has finished: the last configured player id.
Line 288 reads this stale variable instead of the entity id carried by
the event. -/
def staleMediaPlayerId (spotify_player_ids : List String) : String :=
  spotify_player_ids.getLastD ""

/-- Lines 256-314: processing of one trigger event message.  A gate-helper
event updates the matching tracker and nothing else; otherwise the
attributes are read — a missing key raises `KeyError`, which the broad
`except` at line 310 turns into a no-op from the point it was raised.  A
non-music `media_content_type` is dropped at line 283.  The track decision
at line 288 consults `player_dict[media_player_id]`, with the stale loop
variable as the key; on a skip decision the log line at 294 reads
`media_artist` and `media_title` BEFORE the command is sent, so missing
those aborts the send although the tracker was already updated. -/
def processEvent (skip_enabled_ids : List String) (media_player_id : String)
    (st : MonitorState) (e : EventData) (fetched : Option Bool) (now : Int) :
    MonitorState × List OutCmd :=
  if e.entity_id ∈ skip_enabled_ids then
    ({ st with
        players := setGateFirst st.players e.entity_id (decide (e.state = "on")) }, [])
  else
    match dictGet e.attributes "media_content_type" with
    | none => (st, [])
    | some t =>
        if t ≠ "music" then (st, [])
        else
          match dictGet e.attributes "media_content_id" with
          | none => (st, [])
          | some mcid =>
              match dictGet st.players media_player_id with
              | none => (st, [])
              | some tr =>
                  let r := should_skip_track tr mcid now fetched
                  let st1 := { st with
                    players := dictSet st.players media_player_id r.2 }
                  if r.1 then
                    match dictGet e.attributes "media_artist",
                        dictGet e.attributes "media_title" with
                    | some _, some _ =>
                        ({ st1 with tx := get_new_tx_id st.tx },
                         [OutCmd.call_service (get_new_tx_id st.tx) "media_player"
                            "media_next_track" e.entity_id])
                    | _, _ => (st1, [])
                  else (st1, [])

/-- Claim C1 demonstration at the failing input: with the two monitored
players a and b the stale subscribe-loop variable holds b, so a
qualifying music event FROM player a is evaluated against the tracker OF
player b: b records the track (and receives the fetched gate), while the
tracker of a stays untouched.  The decision is thus taken by a Tracker
belonging to a different monitored entity than the one named in the
event. -/
theorem cross_tracker_evaluation :
    (processEvent ["input_boolean.a", "input_boolean.b"]
        (staleMediaPlayerId ["media_player.a", "media_player.b"])
        ⟨[("media_player.a", trackerInit "media_player.a" "input_boolean.a" 24),
          ("media_player.b", trackerInit "media_player.b" "input_boolean.b" 24)], 1⟩
        ⟨"media_player.a", "playing",
          [("media_content_type", "music"), ("media_content_id", "song1"),
           ("media_artist", "A"), ("media_title", "T")]⟩
        (some true) 100).1.players =
      [("media_player.a", trackerInit "media_player.a" "input_boolean.a" 24),
       ("media_player.b",
        ⟨"media_player.b", "input_boolean.b", some true, 24, [("song1", 100)]⟩)] := by
  decide

/-- Claim C10: an event for an entity that is not a gate helper, whose
attributes carry a `media_content_type` different from music, changes no
state at all — no tracker update, no gate change, no outbound command —
because line 283 drops it before `should_skip_track` is reached. -/
theorem non_music_filtered (skip_enabled_ids : List String) (media_player_id : String)
    (st : MonitorState) (e : EventData) (fetched : Option Bool) (now : Int) (t : String)
    (h1 : e.entity_id ∉ skip_enabled_ids)
    (h2 : dictGet e.attributes "media_content_type" = some t)
    (h3 : t ≠ "music") :
    processEvent skip_enabled_ids media_player_id st e fetched now = (st, []) := by
  simp only [processEvent, h2]
  rw [if_neg h1, if_pos h3]

/-- Witness for claim C10: a podcast event from a monitored player leaves
the state alone and sends nothing. -/
theorem non_music_filtered_witness :
    processEvent ["input_boolean.a"] "media_player.a"
        ⟨[("media_player.a", trackerInit "media_player.a" "input_boolean.a" 24)], 1⟩
        ⟨"media_player.a", "playing",
          [("media_content_type", "podcast"), ("media_content_id", "ep1")]⟩
        none 50 =
      (⟨[("media_player.a", trackerInit "media_player.a" "input_boolean.a" 24)], 1⟩, []) :=
  non_music_filtered ["input_boolean.a"] "media_player.a"
    ⟨[("media_player.a", trackerInit "media_player.a" "input_boolean.a" 24)], 1⟩
    ⟨"media_player.a", "playing",
      [("media_content_type", "podcast"), ("media_content_id", "ep1")]⟩
    none 50 "podcast" (by decide) (by decide) (by decide)

end HaTempest
